import Mathlib

/-!
Shallow embedding of the name-resolution core of the extension:

* `src/background/services/name/utils.ts` — the three resolver strategies and
  the shared record types;
* the `NameService` orchestrator module (gateway URL rewriting, `lookUpName`,
  `lookUpEthereumAddress`, `lookUpAvatar`);
* the read-only accessors of the preference service that the strategies use.

Conventions of the embedding:

* UNIX timestamps are `Nat` milliseconds, exactly the unit of `Date.now()`.
* A JavaScript value that may be `undefined`/`null` is an `Option`.
* A function that may `throw` returns `Except String _`; the string is the
  message of the thrown error.
* Asynchronous environment calls (provider lookups, preference reads, token
  metadata fetches) are passed in as explicit function arguments; the settled
  results of the registered resolver promises are passed to `lookUpName` as a
  `ResolverOutcomes` value.
-/

/-! ## WHATWG URL model

The code manipulates platform `URL` objects. We model the parts it touches:
the constructor (which throws on an unparsable input, modelled by `Option`),
the `protocol`/`hostname`/`pathname`/`search`/`hash` components, the
authority/opaque-path distinction, and serialization (`href`). Per the WHATWG
standard the parsed scheme is ASCII-lowercased, and the host of a special
scheme (http, https, ...) is lowercased, while a non-special scheme carries an
opaque host that keeps its case.
-/

/-- JavaScript `toLowerCase()` restricted to ASCII, which is all this code
feeds it (hex addresses, URI schemes, hostnames). Defined over the character
list so that it reduces in the kernel. -/
def jsToLowerCase (s : String) : String :=
  String.mk (s.data.map Char.toLower)

/-- JavaScript `s.startsWith(p)`, over the character lists so that it reduces
in the kernel. -/
def jsStartsWith (s p : String) : Bool :=
  p.data.isPrefixOf s.data

/-- JavaScript `s.endsWith(p)`, over the character lists so that it reduces
in the kernel. -/
def jsEndsWith (s p : String) : Bool :=
  p.data.isSuffixOf s.data

/-- Splitting worker: cut the character list at every delimiter, keeping
empty pieces (as JavaScript `split` with a single-character-class regex
does). -/
def splitCharsAux (p : Char → Bool) : List Char → List Char → List (List Char)
  | [], acc => [acc.reverse]
  | c :: cs, acc =>
    if p c then acc.reverse :: splitCharsAux p cs []
    else splitCharsAux p cs (c :: acc)

/-- JavaScript `s.split(re)` for a single-character-class regex `re` given as
a character predicate: pieces between delimiter occurrences, empty pieces
included (`"" → [""]`, `"a:" → ["a", ""]`, `"a::b" → ["a", "", "b"]`). -/
def jsSplit (s : String) (p : Char → Bool) : List String :=
  (splitCharsAux p s.data []).map String.mk

structure URL where
  scheme : String
  hostname : String
  pathname : String
  search : Option String
  fragment : Option String
  hasAuthority : Bool
deriving DecidableEq, Repr

def isSchemeStartChar (c : Char) : Bool :=
  ('a' ≤ c && c ≤ 'z') || ('A' ≤ c && c ≤ 'Z')

def isSchemeChar (c : Char) : Bool :=
  isSchemeStartChar c || ('0' ≤ c && c ≤ '9') || c == '+' || c == '-' || c == '.'

/-- Split a character list at the first character satisfying `p`: the part
before it and, when the separator occurs, the part after it. -/
def splitAtFirstChar (p : Char → Bool) : List Char → List Char × Option (List Char)
  | [] => ([], none)
  | c :: cs =>
    if p c then ([], some cs)
    else
      let rest := splitAtFirstChar p cs
      (c :: rest.1, rest.2)

/-- The special schemes of the WHATWG URL standard (their hosts are domains
and are lowercased on parsing). -/
def specialSchemes : List String := ["ftp", "file", "http", "https", "ws", "wss"]

/-- Model of `new URL(s)` (without a base), restricted to the fragments of the
WHATWG parsing algorithm this code exercises: scheme validation and
lowercasing, the `scheme://authority/path` versus opaque `scheme:path` split,
query and fragment extraction, and host lowercasing for special schemes.
`none` models the constructor throwing a `TypeError`. -/
def newURL (s : String) : Option URL :=
  let cs := s.data
  let schemeChars := cs.takeWhile isSchemeChar
  let rest := cs.drop schemeChars.length
  match schemeChars, rest with
  | c :: _, ':' :: afterColon =>
    if isSchemeStartChar c then
      let scheme := jsToLowerCase (String.mk schemeChars)
      let hashSplit := splitAtFirstChar (· == '#') afterColon
      let querySplit := splitAtFirstChar (· == '?') hashSplit.1
      match querySplit.1 with
      | '/' :: '/' :: afterSlashes =>
        let hostChars :=
          afterSlashes.takeWhile (fun h => h != '/' && h != '?' && h != '#')
        let pathChars := afterSlashes.drop hostChars.length
        let host0 := String.mk hostChars
        let host := if specialSchemes.contains scheme then jsToLowerCase host0 else host0
        some ⟨scheme, host, String.mk pathChars,
              querySplit.2.map String.mk, hashSplit.2.map String.mk, true⟩
      | opaquePath =>
        some ⟨scheme, "", String.mk opaquePath,
              querySplit.2.map String.mk, hashSplit.2.map String.mk, false⟩
    else none
  | _, _ => none

/-- Serialization of a URL (the `href` getter). -/
def URL.href (u : URL) : String :=
  u.scheme ++ ":" ++ (if u.hasAuthority then "//" ++ u.hostname else "")
    ++ u.pathname
    ++ (match u.search with | some q => "?" ++ q | none => "")
    ++ (match u.fragment with | some f => "#" ++ f | none => "")

/-- The `protocol` getter: per the WHATWG standard it returns the scheme
followed by U+003A (":"), e.g. `"https:"`, never the bare scheme. -/
def URL.protocol (u : URL) : String := u.scheme ++ ":"

/-! ## Gateway URL rewriter (service module, top level) -/

/-- Embeds `const ipfsGateway = new URL("https://ipfs.io/ipfs/")`. -/
def ipfsGateway : URL := ⟨"https", "ipfs.io", "/ipfs/", none, none, true⟩

/-- Embeds `const arweaveGateway = new URL("https://arweave.net/")`. -/
def arweaveGateway : URL := ⟨"https", "arweave.net", "/", none, none, true⟩

theorem ipfsGateway_parses : newURL "https://ipfs.io/ipfs/" = some ipfsGateway := by
  decide

theorem arweaveGateway_parses : newURL "https://arweave.net/" = some arweaveGateway := by
  decide

/-- Embeds `changeURLProtocolAndBase(url, baseURL)`: copy the URL and assign
its `protocol` and `hostname` from the base URL and its `pathname` to
`` `${baseURL.pathname}/${url.hostname}/${url.pathname}` ``. The three
property assignments are modelled as record updates. -/
def changeURLProtocolAndBase (url baseURL : URL) : URL :=
  { url with
      scheme := baseURL.scheme
      hostname := baseURL.hostname
      pathname := baseURL.pathname ++ "/" ++ url.hostname ++ "/" ++ url.pathname }

/-- Embeds `storageGatewayURL(url)`: a switch on `url.protocol` with cases
`"ipfs"` and `"ar"` and a default returning the URL unchanged. Note that the
scrutinee is the `protocol` getter (scheme plus trailing colon). -/
def storageGatewayURL (url : URL) : URL :=
  if url.protocol = "ipfs" then changeURLProtocolAndBase url ipfsGateway
  else if url.protocol = "ar" then changeURLProtocolAndBase url arweaveGateway
  else url

/-- Sanity: parsing the spec's first test vector recovers its components. -/
theorem newURL_ipfs_vector :
    newURL "ipfs://CID/path?x=1#y"
      = some ⟨"ipfs", "CID", "/path", some "x=1", some "y", true⟩ := by
  decide

/-- C1: the spec's test vectors for the gateway URL rewriter fail. Because the
WHATWG `protocol` getter yields the scheme with a trailing colon ("ipfs:",
"ar:", "https:"), the switch cases `"ipfs"` and `"ar"` in `storageGatewayURL`
never match and every URI — including the ipfs and ar vectors — is returned
unchanged instead of being rewritten to the gateway, contradicting the
function's own documented examples. -/
theorem storageGatewayURL_leaves_vectors_unchanged :
    (newURL "ipfs://CID/path?x=1#y").map (fun u => (storageGatewayURL u).href)
        = some "ipfs://CID/path?x=1#y"
      ∧ (newURL "ar://TXID").map (fun u => (storageGatewayURL u).href)
        = some "ar://TXID"
      ∧ (newURL "https://example.com/a").map (fun u => (storageGatewayURL u).href)
        = some "https://example.com/a" := by
  refine ⟨?_, ?_, ?_⟩ <;> decide

/-! ## Data model (`src/background/services/name/utils.ts`) -/

/-- Embeds the `EVMNetwork` chain descriptor; only the `chainID` field is
consulted by this core. -/
structure EVMNetwork where
  chainID : String
deriving DecidableEq, Repr

structure AddressOnNetwork where
  address : String
  network : EVMNetwork
deriving DecidableEq, Repr

/-- Embeds the union type `NameResolverSystem`:
"ENS" | "UNS" | "address-book" | "known-contracts". -/
inductive NameResolverSystem where
  | ENS
  | UNS
  | addressBook
  | knownContracts
deriving DecidableEq, Repr

/-- Embeds the `resolved` payload of a `ResolvedNameRecord`:
`{ name: DomainName; expiresAt: UNIXTime }`. -/
structure ResolvedName where
  name : String
  expiresAt : Nat
deriving DecidableEq, Repr

/-- Embeds `ResolvedNameRecord`; the nested `from.addressNetwork` field is
flattened into `fromAddressNetwork`. -/
structure ResolvedNameRecord where
  fromAddressNetwork : AddressOnNetwork
  resolved : ResolvedName
  system : NameResolverSystem
deriving DecidableEq, Repr

/-- Embeds `ResolvedAddressRecord`: `{ from: { name }, resolved:
{ addressNetwork }, system }`. -/
structure ResolvedAddressRecord where
  fromName : String
  resolvedAddressNetwork : AddressOnNetwork
  system : NameResolverSystem
deriving DecidableEq, Repr

/-- Modelled from the spec: the canonical normalized form of an EVM address
("address keys are always stored/looked-up in a single canonical normalized
form"); `normalizeEVMAddress` lives in `lib/utils`, which is not under `src`,
and lowercases the address string. -/
def normalizeEVMAddress (address : String) : String :=
  jsToLowerCase address

/-- Modelled from the spec: `sameEVMAddress` from `lib/utils` (not under
`src`) compares two possibly-absent addresses for equality up to
normalization; an absent side is never the same address. The spec: "if the
on-chain resolver for the name resolves to a different address, return 'not
found'". -/
def sameEVMAddress (a b : Option String) : Bool :=
  match a, b with
  | some x, some y => normalizeEVMAddress x = normalizeEVMAddress y
  | _, _ => false

/-- Modelled from the spec: `SECOND` from the constants module (not under
`src`) is one second in the unit of `Date.now()`, i.e. 1000 milliseconds. -/
def SECOND : Nat := 1000

/-- Embeds `const MINIMUM_RECORD_EXPIRY = 10 * SECOND` ("a minimum record
expiry that avoids infinite resolution loops"). -/
def MINIMUM_RECORD_EXPIRY : Nat := 10 * SECOND

/-! ## The domain-name check of the ENS resolver

The source tests `name.length <= 253 && name.match(re)` with
`re = /^[a-zA-Z0-9][a-zA-Z0-9-]{1,62}\.([a-zA-Z0-9][a-zA-Z0-9-]{1,62}\.)*[a-zA-Z0-9][a-zA-Z0-9-]{1,62}/`.

Writing `L` for `[a-zA-Z0-9][a-zA-Z0-9-]{1,62}` (a label: 2–63 characters,
the first alphanumeric, the rest alphanumeric or hyphen), the pattern is
anchored at the start only and reads `L "." (L ".")* L`. Because `.` is not a
label character, every `L` that must be followed by `"."` necessarily spans
exactly one dot-delimited segment of the string, and the final `L` (which may
be followed by anything, the pattern having no end anchor) begins right after
a dot and only needs its first character alphanumeric and its second a label
character. The regex therefore accepts exactly the strings for which some
`k ≥ 1` exists such that the first `k` dot-separated segments are full labels
and the text after the k-th dot opens with an alphanumeric character followed
by a label character. -/

def isAlnumAscii (c : Char) : Bool :=
  ('a' ≤ c && c ≤ 'z') || ('A' ≤ c && c ≤ 'Z') || ('0' ≤ c && c ≤ '9')

def isLabelChar (c : Char) : Bool :=
  isAlnumAscii c || c == '-'

/-- A whole dot-delimited segment matching `[a-zA-Z0-9][a-zA-Z0-9-]{1,62}`
exactly. -/
def isFullLabel (s : String) : Bool :=
  match s.data with
  | [] => false
  | c :: rest =>
    isAlnumAscii c && rest.all isLabelChar && 1 ≤ rest.length && rest.length ≤ 62

/-- The final label of the pattern only constrains the first two characters
after the last consumed dot (no end anchor). -/
def finalLabelStart (s : String) : Bool :=
  match s.data with
  | c0 :: c1 :: _ => isAlnumAscii c0 && isLabelChar c1
  | _ => false

/-- Decision procedure for `name.match(re)` being truthy, per the analysis
above. -/
def domainNameRegexTest (s : String) : Bool :=
  let parts := jsSplit s (· == '.')
  (List.range parts.length).any fun k =>
    k != 0 && (parts.take k).all isFullLabel &&
      (match parts.get? k with
       | some seg => finalLabelStart seg
       | none => false)

/-! ## Resolver strategies (`src/background/services/name/utils.ts`) -/

/-- Embeds `ensAddressResolverFor(chainService)` applied to one
`AddressOnNetwork`. The environment argument `lookupAddress` stands for
`chainService.providerForNetwork(network)?.lookupAddress(address)`: `none`
covers both a missing provider (the optional chaining) and a `null`/absent
reverse-lookup result, the two cases the code folds together. `now` is the
value of `Date.now()` at resolution time. -/
def ensAddressResolverFor (lookupAddress : String → Option String) (now : Nat)
    (addressNetwork : AddressOnNetwork) : Option ResolvedNameRecord :=
  match lookupAddress addressNetwork.address with
  | none => none
  | some name =>
    if name.length ≤ 253 && domainNameRegexTest name then
      some ⟨addressNetwork, ⟨name, now + MINIMUM_RECORD_EXPIRY⟩, .ENS⟩
    else none

/-- Embeds `addressBookResolverFor(preferenceService)` applied to one
`AddressOnNetwork`; `addressBookEVM` stands for
`(await preferenceService.getAddressBook()).evm`, an object keyed by
normalized address. -/
def addressBookResolverFor (addressBookEVM : String → Option String) (now : Nat)
    (addressNetwork : AddressOnNetwork) : Option ResolvedNameRecord :=
  match addressBookEVM (normalizeEVMAddress addressNetwork.address) with
  | none => none
  | some name =>
    some ⟨addressNetwork, ⟨name, now + MINIMUM_RECORD_EXPIRY⟩, .addressBook⟩

/-- Embeds `knownContractResolverFor(preferenceService)` applied to one
`AddressOnNetwork`; `knownContractsEVM` stands for
`(await preferenceService.getKnownContractNames()).evm`. -/
def knownContractResolverFor (knownContractsEVM : String → Option String) (now : Nat)
    (addressNetwork : AddressOnNetwork) : Option ResolvedNameRecord :=
  match knownContractsEVM (normalizeEVMAddress addressNetwork.address) with
  | none => none
  | some name =>
    some ⟨addressNetwork, ⟨name, now + MINIMUM_RECORD_EXPIRY⟩, .knownContracts⟩

/-- Embeds `BUILT_IN_CONTRACT_NAMES` of the preference service. -/
def BUILT_IN_CONTRACT_NAMES (key : String) : Option String :=
  if key = normalizeEVMAddress "0xDef1C0ded9bec7F1a1670819833240f027b25EfF" then
    some "0x Router"
  else none

/-- Embeds `PreferenceService.getKnownContractNames().evm`, which returns the
built-in table. -/
def getKnownContractNamesEVM : String → Option String :=
  BUILT_IN_CONTRACT_NAMES

/-- Embeds `PreferenceService.getAddressBook().evm`, which returns an empty
object. -/
def getAddressBookEVM : String → Option String :=
  fun _ => none

/-! ## NameService state and the resolution environment -/

/-- Embeds the two private caches of `NameService`. Both are plain objects
keyed by strings; we model them as functions to `Option`. -/
structure NameServiceState where
  cachedEIP155AvatarURLs : String → Option URL
  cachedResolvedNames : String → Option ResolvedNameRecord

/-- A state whose caches are empty, as at service construction. -/
def initialNameServiceState : NameServiceState :=
  ⟨fun _ => none, fun _ => none⟩

/-- One settled promise of a resolver, as inspected through the result of
`Promise.allSettled`: either fulfilled with `ResolvedNameRecord | undefined`,
or rejected (the resolver threw). -/
inductive SettledOutcome where
  | fulfilled (value : Option ResolvedNameRecord)
  | rejected
deriving DecidableEq, Repr

/-- The settled results of the three resolvers registered by the `NameService`
constructor, named in registration order: `ensAddressResolverFor`, then
`addressBookResolverFor`, then `knownContractResolverFor`. -/
structure ResolverOutcomes where
  ens : SettledOutcome
  addressBook : SettledOutcome
  knownContracts : SettledOutcome
deriving DecidableEq, Repr

/-- The promises handed to `Promise.allSettled` by `lookUpName`, in the order
`this.addressResolvers.map(...)` produces them. -/
def ResolverOutcomes.toList (o : ResolverOutcomes) : List SettledOutcome :=
  [o.ens, o.addressBook, o.knownContracts]

/-- Embeds `Promise.allSettled(...)`: the result array is indexed by the input
array, so the order in which the individual promises settle (the
`completionOrder` argument) cannot influence it. -/
def allSettled (outcomes : List SettledOutcome) (completionOrder : List Nat) :
    List SettledOutcome :=
  let _ := completionOrder
  outcomes

/-- Embeds the arrow `result => result.status === "fulfilled" ? result.value
: undefined` mapped over the settled results. -/
def settleValue : SettledOutcome → Option ResolvedNameRecord
  | .fulfilled value => value
  | .rejected => none

/-- Embeds the selection in `lookUpName`: map the settled results to their
fulfilled values (faults becoming `undefined`) and `.find` the first one that
is not `undefined`. -/
def resolvedNameRecordOf (outcomes : ResolverOutcomes) (completionOrder : List Nat) :
    Option ResolvedNameRecord :=
  ((allSettled outcomes.toList completionOrder).map settleValue).findSome? id

/-- Result of a `lookUpName` call: the returned value (or thrown error), the
name cache afterwards, whether the registered resolvers were invoked, and the
`resolvedName` events emitted during the call. -/
structure LookUpNameResult where
  ret : Except String (Option String)
  cachedResolvedNames : String → Option ResolvedNameRecord
  resolversInvoked : Bool
  resolvedNameEvents : List ResolvedNameRecord

/-- Embeds the resolution half of `lookUpName` (from the
`Promise.allSettled` call to the final return): select the winning record; if
none, return `undefined` touching nothing; otherwise read the previously
cached name, store the record under the verbatim `address` key, and emit a
`resolvedName` event only if the name changed. -/
def lookUpNameResolve (state : NameServiceState) (address : String)
    (outcomes : ResolverOutcomes) (completionOrder : List Nat) : LookUpNameResult :=
  match resolvedNameRecordOf outcomes completionOrder with
  | none => ⟨.ok none, state.cachedResolvedNames, true, []⟩
  | some resolvedNameRecord =>
    let existingName :=
      (state.cachedResolvedNames address).map fun r => r.resolved.name
    let newCache := fun a =>
      if a = address then some resolvedNameRecord else state.cachedResolvedNames a
    ⟨.ok (some resolvedNameRecord.resolved.name), newCache, true,
      if existingName ≠ some resolvedNameRecord.resolved.name
        then [resolvedNameRecord] else []⟩

/-- Embeds `NameService.lookUpName(address, network, checkCache = true)`.
`now` is the value of `Date.now()` at the cache-validity test; `outcomes` are
the settled results of the three registered resolvers for this call and
`completionOrder` the order in which they settled. Throws unless the network
is Ethereum mainnet; on a cache hit (`checkCache` and a stored entry with
`expiresAt >= Date.now()`) returns the cached name without invoking any
resolver; otherwise resolves. -/
def lookUpName (state : NameServiceState) (address : String) (network : EVMNetwork)
    (checkCache : Bool) (now : Nat) (outcomes : ResolverOutcomes)
    (completionOrder : List Nat) : LookUpNameResult :=
  if network.chainID ≠ "1" then
    ⟨.error "Only Ethereum mainnet is supported.", state.cachedResolvedNames, false, []⟩
  else
    match (if checkCache then state.cachedResolvedNames address else none) with
    | some cached =>
      if cached.resolved.expiresAt ≥ now then
        ⟨.ok (some cached.resolved.name), state.cachedResolvedNames, false, []⟩
      else
        lookUpNameResolve state address outcomes completionOrder
    | none => lookUpNameResolve state address outcomes completionOrder

/-! ## NameService.lookUpEthereumAddress -/

/-- Modelled from the spec: `ETHEREUM` from the constants module (not under
`src`) is the designated primary network, Ethereum mainnet, with chain id
"1". -/
def ETHEREUM : EVMNetwork := ⟨"1"⟩

/-- Embeds the test `address.match(/^0x[a-zA-Z0-9]*$/)` being truthy: the
string opens with "0x" and every following character is ASCII
alphanumeric. -/
def hexAddressShapeTest (s : String) : Bool :=
  match s.data with
  | '0' :: 'x' :: rest => rest.all isAlnumAscii
  | _ => false

/-- Result of a `lookUpEthereumAddress` call: the returned value or thrown
error, whether the provider's forward lookup was reached, and the
`resolvedAddress` events emitted. -/
structure LookUpEthereumAddressResult where
  ret : Except String (Option String)
  providerCalled : Bool
  resolvedAddressEvents : List ResolvedAddressRecord

/-- Embeds `NameService.lookUpEthereumAddress(name)`. The environment
argument `resolveName` stands for `provider.resolveName`, `none` covering a
`null` (absent) result. The guard `name.match(/.*\.eth$/)` is truthy exactly
when `name` ends with ".eth": the pattern has no start anchor, `$` matches
only at the end of the string, and `.*` may be empty, so a match exists
precisely at the position 4 characters before the end. The guard
`!address || !address.match(/^0x[a-zA-Z0-9]*$/)` makes an absent, empty
(falsy), or ill-shaped result return `undefined`. -/
def lookUpEthereumAddress (resolveName : String → Option String) (name : String) :
    LookUpEthereumAddressResult :=
  if ¬ jsEndsWith name ".eth" then
    ⟨.error "Only .eth names can be resolved today.", false, []⟩
  else
    match resolveName name with
    | none => ⟨.ok none, true, []⟩
    | some address =>
      if address = "" || ¬ hexAddressShapeTest address then
        ⟨.ok none, true, []⟩
      else
        let normalized := normalizeEVMAddress address
        ⟨.ok (some normalized), true, [⟨name, ⟨normalized, ETHEREUM⟩, .ENS⟩]⟩

/-! ## NameService.lookUpAvatar -/

/-- Whitespace stripped by `BigInt(string)` (the JavaScript StringToBigInt
conversion trims leading and trailing whitespace). -/
def isJsWhitespace (c : Char) : Bool :=
  c == ' ' || c == '\t' || c == '\n' || c == '\r' || c == '\x0b' || c == '\x0c'

/-- Numeric value of one digit character in bases up to 16 (code points: the
decimal digits start at 48, the lowercase letters at 97, the uppercase ones
at 65); digits beyond the caller's base are rejected by the caller. -/
def hexDigitVal (c : Char) : Option Nat :=
  let n := c.toNat
  if 48 ≤ n ∧ n ≤ 57 then some (n - 48)
  else if 97 ≤ n ∧ n ≤ 102 then some (n - 87)
  else if 65 ≤ n ∧ n ≤ 70 then some (n - 55)
  else none

/-- Value of a nonempty digit sequence in the given base; `none` when a
character is not a digit of the base. -/
def digitsVal (base : Nat) (cs : List Char) : Option Nat :=
  cs.foldl
    (fun acc c =>
      match acc, hexDigitVal c with
      | some a, some d => if d < base then some (a * base + d) else none
      | _, _ => none)
    (some 0)

/-- Embeds the JavaScript `BigInt(string)` conversion: trim whitespace; an
empty remainder is 0; a `0x`/`0o`/`0b` prefix introduces an unsigned hex,
octal, or binary numeral; otherwise an optional sign followed by at least one
decimal digit. Any other input throws a `SyntaxError`, modelled by `none`. -/
def jsBigInt (s : String) : Option Int :=
  let t := (((s.data.dropWhile isJsWhitespace).reverse).dropWhile isJsWhitespace).reverse
  match t with
  | [] => some 0
  | '0' :: 'x' :: ds => if ds.isEmpty then none else (digitsVal 16 ds).map Int.ofNat
  | '0' :: 'X' :: ds => if ds.isEmpty then none else (digitsVal 16 ds).map Int.ofNat
  | '0' :: 'o' :: ds => if ds.isEmpty then none else (digitsVal 8 ds).map Int.ofNat
  | '0' :: 'O' :: ds => if ds.isEmpty then none else (digitsVal 8 ds).map Int.ofNat
  | '0' :: 'b' :: ds => if ds.isEmpty then none else (digitsVal 2 ds).map Int.ofNat
  | '0' :: 'B' :: ds => if ds.isEmpty then none else (digitsVal 2 ds).map Int.ofNat
  | '-' :: ds =>
    if ds.isEmpty then none else (digitsVal 10 ds).map fun n => -(n : Int)
  | '+' :: ds => if ds.isEmpty then none else (digitsVal 10 ds).map Int.ofNat
  | ds => (digitsVal 10 ds).map Int.ofNat

/-- The resolver object returned by `provider.getResolver(name)` when it is
not `null`: the results of `resolver.getAddress()` and of
`resolver.getText(key)`. -/
structure ResolverHandle where
  getAddress : Option String
  getText : String → Option String

/-- The object returned by `getTokenMetadata`; only its `image` field is
consulted (`metadata.image`, possibly absent). -/
structure TokenMetadata where
  image : Option String
deriving DecidableEq, Repr

/-- Result of a `lookUpAvatar` call: the returned value or thrown error, both
caches afterwards, the `resolvedName` events of the inner `lookUpName`, and
whether `getTokenMetadata` was invoked. -/
structure LookUpAvatarResult where
  ret : Except String (Option URL)
  cachedResolvedNames : String → Option ResolvedNameRecord
  cachedEIP155AvatarURLs : String → Option URL
  resolvedNameEvents : List ResolvedNameRecord
  metadataFetched : Bool

/-- Embeds the statement `return storageGatewayURL(new URL(avatar))` that the
erc721 branch of `lookUpAvatar` falls through to (and that a non-erc721
avatar text reaches directly). -/
def avatarTextFallthrough (avatar : String)
    (names : String → Option ResolvedNameRecord) (avatarCache : String → Option URL)
    (events : List ResolvedNameRecord) (metadataFetched : Bool) : LookUpAvatarResult :=
  match newURL avatar with
  | some u =>
    ⟨.ok (some (storageGatewayURL u)), names, avatarCache, events, metadataFetched⟩
  | none => ⟨.error "TypeError: Invalid URL", names, avatarCache, events, metadataFetched⟩

/-- Embeds `NameService.lookUpAvatar(address, network)`. Environment
arguments: `getResolver` stands for `provider.getResolver` (`none` covering a
`null` resolver), `getTokenMetadata` for the erc721 metadata fetch, and
`now`, `outcomes`, `completionOrder` parameterize the inner
`this.lookUpName(address, network)` call exactly as in `lookUpName`. The
avatar cache is read under `avatar.toLowerCase()` but written under the
original-case `avatar` key, as in the source. -/
def lookUpAvatar (state : NameServiceState) (address : String) (network : EVMNetwork)
    (now : Nat) (outcomes : ResolverOutcomes) (completionOrder : List Nat)
    (getResolver : String → Option ResolverHandle)
    (getTokenMetadata : String → Int → Option TokenMetadata) : LookUpAvatarResult :=
  if network.chainID ≠ "1" then
    ⟨.error "Only Ethereum mainnet is supported.", state.cachedResolvedNames,
     state.cachedEIP155AvatarURLs, [], false⟩
  else
    let nameResult := lookUpName state address network true now outcomes completionOrder
    let names := nameResult.cachedResolvedNames
    let events := nameResult.resolvedNameEvents
    match nameResult.ret with
    | .error e => ⟨.error e, names, state.cachedEIP155AvatarURLs, events, false⟩
    | .ok none => ⟨.ok none, names, state.cachedEIP155AvatarURLs, events, false⟩
    | .ok (some name) =>
      -- `if (!name) { return undefined }`: a falsy name — `undefined` is the
      -- `.ok none` case above; the empty string is handled here.
      if name = "" then
        ⟨.ok none, names, state.cachedEIP155AvatarURLs, events, false⟩
      else
        let resolver := getResolver name
        if ¬ sameEVMAddress (resolver.bind fun r => r.getAddress) (some address) then
          ⟨.ok none, names, state.cachedEIP155AvatarURLs, events, false⟩
        else
          match resolver.bind fun r => r.getText "avatar" with
          | some avatar =>
            if avatar ≠ "" then
              if jsStartsWith avatar "eip155:1/erc721:" then
                match state.cachedEIP155AvatarURLs (jsToLowerCase avatar) with
                | some cachedURL =>
                  ⟨.ok (some cachedURL), names, state.cachedEIP155AvatarURLs, events, false⟩
                | none =>
                  let parts := jsSplit avatar fun c => c == ':' || c == '/'
                  match parts.get? 3, parts.get? 4 with
                  | some erc721Address, some nftID =>
                    match jsBigInt nftID with
                    | none =>
                      ⟨.error "SyntaxError: Cannot convert the token id to a BigInt",
                       names, state.cachedEIP155AvatarURLs, events, false⟩
                    | some tokenID =>
                      match getTokenMetadata erc721Address tokenID with
                      | some metadata =>
                        match metadata.image with
                        | some image =>
                          if image ≠ "" then
                            match newURL image with
                            | some imageURL =>
                              let resolvedGateway := storageGatewayURL imageURL
                              let newAvatarCache := fun k =>
                                if k = avatar then some resolvedGateway
                                else state.cachedEIP155AvatarURLs k
                              ⟨.ok (some resolvedGateway), names, newAvatarCache,
                               events, true⟩
                            | none =>
                              ⟨.error "TypeError: Invalid URL", names,
                               state.cachedEIP155AvatarURLs, events, true⟩
                          else
                            avatarTextFallthrough avatar names
                              state.cachedEIP155AvatarURLs events true
                        | none =>
                          avatarTextFallthrough avatar names
                            state.cachedEIP155AvatarURLs events true
                      | none =>
                        avatarTextFallthrough avatar names
                          state.cachedEIP155AvatarURLs events true
                  | _, _ =>
                    avatarTextFallthrough avatar names
                      state.cachedEIP155AvatarURLs events false
              else
                avatarTextFallthrough avatar names
                  state.cachedEIP155AvatarURLs events false
            else
              ⟨.ok none, names, state.cachedEIP155AvatarURLs, events, false⟩
          | none => ⟨.ok none, names, state.cachedEIP155AvatarURLs, events, false⟩

/-! ## Helper lemmas about lookUpName -/

/-- Written from the spec's words, for comparison with the code's selection:
"iterate in fixed strategy-priority order {on-chain-reverse-lookup,
address-book, known-contract}; the first strategy that produced a record
wins." -/
def specPriorityWinner (ens addressBook knownContracts : Option ResolvedNameRecord) :
    Option ResolvedNameRecord :=
  match ens with
  | some r => some r
  | none =>
    match addressBook with
    | some r => some r
    | none => knownContracts

/-- The code's selection (map to fulfilled values, take the first defined one)
agrees with the spec's priority iteration, for every completion order. -/
theorem resolvedNameRecordOf_eq_specPriorityWinner (o : ResolverOutcomes)
    (co : List Nat) :
    resolvedNameRecordOf o co
      = specPriorityWinner (settleValue o.ens) (settleValue o.addressBook)
          (settleValue o.knownContracts) := by
  rcases o with ⟨e, a, k⟩
  cases he : settleValue e <;> cases ha : settleValue a <;> cases hk : settleValue k <;>
    simp [resolvedNameRecordOf, allSettled, ResolverOutcomes.toList, List.findSome?,
      specPriorityWinner, he, ha, hk]

/-- When the network is mainnet and the cache does not hold a valid entry for
the looked-up key, `lookUpName` proceeds to resolution. -/
theorem lookUpName_miss (state : NameServiceState) (address : String)
    (network : EVMNetwork) (checkCache : Bool) (now : Nat)
    (outcomes : ResolverOutcomes) (co : List Nat)
    (hnet : network.chainID = "1")
    (hmiss : ∀ c, (if checkCache then state.cachedResolvedNames address else none) = some c →
      c.resolved.expiresAt < now) :
    lookUpName state address network checkCache now outcomes co
      = lookUpNameResolve state address outcomes co := by
  unfold lookUpName
  rw [if_neg (by simp [hnet])]
  cases h : (if checkCache then state.cachedResolvedNames address else none) with
  | none => rfl
  | some c =>
    have hge : ¬ c.resolved.expiresAt ≥ now := by
      have hlt := hmiss c h
      omega
    simp [hge]

/-- Behaviour of the resolution half on a winning record: the returned name,
the unconditional store under the verbatim address key, and the emission
condition. -/
theorem lookUpNameResolve_win (state : NameServiceState) (address : String)
    (outcomes : ResolverOutcomes) (co : List Nat) (w : ResolvedNameRecord)
    (hwin : resolvedNameRecordOf outcomes co = some w) :
    (lookUpNameResolve state address outcomes co).ret = .ok (some w.resolved.name)
      ∧ (lookUpNameResolve state address outcomes co).cachedResolvedNames address = some w
      ∧ (lookUpNameResolve state address outcomes co).resolvedNameEvents
        = (if (state.cachedResolvedNames address).map (fun r => r.resolved.name)
              ≠ some w.resolved.name then [w] else []) := by
  unfold lookUpNameResolve
  rw [hwin]
  exact ⟨rfl, by simp, rfl⟩

/-- C2: on the primary network, when more than one resolver strategy produces
a record, `lookUpName` returns — and stores in the cache — the record of the
highest-priority strategy in the fixed order on-chain reverse lookup (ENS) >
address book > known contracts, for every completion order of the
strategies. -/
theorem lookUpName_priority_selection
    (state : NameServiceState) (address : String) (network : EVMNetwork)
    (checkCache : Bool) (now : Nat) (outcomes : ResolverOutcomes)
    (hnet : network.chainID = "1")
    (hmiss : ∀ c, (if checkCache then state.cachedResolvedNames address else none) = some c →
      c.resolved.expiresAt < now)
    (hmulti : 1 < (outcomes.toList.filterMap settleValue).length) :
    ∃ w, specPriorityWinner (settleValue outcomes.ens) (settleValue outcomes.addressBook)
          (settleValue outcomes.knownContracts) = some w
      ∧ ∀ completionOrder,
          (lookUpName state address network checkCache now outcomes completionOrder).ret
            = .ok (some w.resolved.name)
          ∧ (lookUpName state address network checkCache now outcomes
              completionOrder).cachedResolvedNames address = some w := by
  have key : ∀ w, specPriorityWinner (settleValue outcomes.ens)
      (settleValue outcomes.addressBook) (settleValue outcomes.knownContracts) = some w →
      ∀ completionOrder,
        (lookUpName state address network checkCache now outcomes completionOrder).ret
          = .ok (some w.resolved.name)
        ∧ (lookUpName state address network checkCache now outcomes
            completionOrder).cachedResolvedNames address = some w := by
    intro w hw co
    have hwin : resolvedNameRecordOf outcomes co = some w := by
      rw [resolvedNameRecordOf_eq_specPriorityWinner, hw]
    rw [lookUpName_miss state address network checkCache now outcomes co hnet hmiss]
    exact ⟨(lookUpNameResolve_win state address outcomes co w hwin).1,
      (lookUpNameResolve_win state address outcomes co w hwin).2.1⟩
  cases he : settleValue outcomes.ens with
  | some r =>
    exact ⟨r, by simp [specPriorityWinner, he], key r (by simp [specPriorityWinner, he])⟩
  | none =>
    cases ha : settleValue outcomes.addressBook with
    | some r =>
      exact ⟨r, by simp [specPriorityWinner, he, ha],
        key r (by simp [specPriorityWinner, he, ha])⟩
    | none =>
      cases hk : settleValue outcomes.knownContracts with
      | some r =>
        exact ⟨r, by simp [specPriorityWinner, he, ha, hk],
          key r (by simp [specPriorityWinner, he, ha, hk])⟩
      | none =>
        exfalso
        simp [ResolverOutcomes.toList, he, ha, hk] at hmulti

def c2RecENS : ResolvedNameRecord := ⟨⟨"0xa", ⟨"1"⟩⟩, ⟨"winner.eth", 10000⟩, .ENS⟩

def c2RecBook : ResolvedNameRecord := ⟨⟨"0xa", ⟨"1"⟩⟩, ⟨"book-name", 10000⟩, .addressBook⟩

/-- Witness for C2 at a concrete input: the ENS and address-book strategies
both produce a record, the known-contract one faults; the ENS record wins for
every completion order. -/
theorem lookUpName_priority_selection_witness :
    ∃ w, specPriorityWinner (settleValue (.fulfilled (some c2RecENS)))
          (settleValue (.fulfilled (some c2RecBook))) (settleValue .rejected) = some w
      ∧ ∀ completionOrder,
          (lookUpName initialNameServiceState "0xa" ⟨"1"⟩ true 5
            ⟨.fulfilled (some c2RecENS), .fulfilled (some c2RecBook), .rejected⟩
            completionOrder).ret = .ok (some w.resolved.name)
          ∧ (lookUpName initialNameServiceState "0xa" ⟨"1"⟩ true 5
              ⟨.fulfilled (some c2RecENS), .fulfilled (some c2RecBook), .rejected⟩
              completionOrder).cachedResolvedNames "0xa" = some w :=
  lookUpName_priority_selection initialNameServiceState "0xa" ⟨"1"⟩ true 5
    ⟨.fulfilled (some c2RecENS), .fulfilled (some c2RecBook), .rejected⟩
    rfl (fun c h => by simp [initialNameServiceState] at h) (by decide)

/-- A settled outcome whose extracted value is a record must have been a
fulfilled promise carrying that record. -/
theorem settleValue_eq_some {o : SettledOutcome} {r : ResolvedNameRecord}
    (h : settleValue o = some r) : o = .fulfilled (some r) := by
  cases o with
  | fulfilled v => simp only [settleValue] at h; rw [h]
  | rejected => simp [settleValue] at h

/-- C3: a strategy's thrown fault is treated identically to that strategy
producing no record — replacing a rejection in any of the three positions by a
fulfilled "no match" leaves the whole call's result unchanged — and when some
strategy produced a record while another faulted, the call neither throws nor
returns "not found": it returns the name of a record-producing strategy. -/
theorem lookUpName_fault_isolation
    (state : NameServiceState) (address : String) (network : EVMNetwork)
    (checkCache : Bool) (now : Nat) (outcomes : ResolverOutcomes)
    (completionOrder : List Nat) (r0 : ResolvedNameRecord)
    (hnet : network.chainID = "1")
    (hmiss : ∀ c, (if checkCache then state.cachedResolvedNames address else none) = some c →
      c.resolved.expiresAt < now)
    (hfault : SettledOutcome.rejected ∈ outcomes.toList)
    (hsucc : SettledOutcome.fulfilled (some r0) ∈ outcomes.toList) :
    (∀ o2 o3, lookUpName state address network checkCache now ⟨.rejected, o2, o3⟩
          completionOrder
        = lookUpName state address network checkCache now ⟨.fulfilled none, o2, o3⟩
          completionOrder)
    ∧ (∀ o1 o3, lookUpName state address network checkCache now ⟨o1, .rejected, o3⟩
          completionOrder
        = lookUpName state address network checkCache now ⟨o1, .fulfilled none, o3⟩
          completionOrder)
    ∧ (∀ o1 o2, lookUpName state address network checkCache now ⟨o1, o2, .rejected⟩
          completionOrder
        = lookUpName state address network checkCache now ⟨o1, o2, .fulfilled none⟩
          completionOrder)
    ∧ ∃ w, SettledOutcome.fulfilled (some w) ∈ outcomes.toList
        ∧ (lookUpName state address network checkCache now outcomes completionOrder).ret
          = .ok (some w.resolved.name) := by
  refine ⟨fun o2 o3 => rfl, fun o1 o3 => rfl, fun o1 o2 => rfl, ?_⟩
  rw [lookUpName_miss state address network checkCache now outcomes completionOrder
    hnet hmiss]
  rcases outcomes with ⟨e, a, k⟩
  cases he : settleValue e with
  | some r =>
    refine ⟨r, ?_, ?_⟩
    · rw [settleValue_eq_some he]; exact List.mem_cons_self _ _
    · exact (lookUpNameResolve_win state address ⟨e, a, k⟩ completionOrder r
        (by rw [resolvedNameRecordOf_eq_specPriorityWinner]
            simp [specPriorityWinner, he])).1
  | none =>
    cases ha : settleValue a with
    | some r =>
      refine ⟨r, ?_, ?_⟩
      · rw [settleValue_eq_some ha]; simp [ResolverOutcomes.toList]
      · exact (lookUpNameResolve_win state address ⟨e, a, k⟩ completionOrder r
          (by rw [resolvedNameRecordOf_eq_specPriorityWinner]
              simp [specPriorityWinner, he, ha])).1
    | none =>
      cases hk : settleValue k with
      | some r =>
        refine ⟨r, ?_, ?_⟩
        · rw [settleValue_eq_some hk]; simp [ResolverOutcomes.toList]
        · exact (lookUpNameResolve_win state address ⟨e, a, k⟩ completionOrder r
            (by rw [resolvedNameRecordOf_eq_specPriorityWinner]
                simp [specPriorityWinner, he, ha, hk])).1
      | none =>
        exfalso
        simp only [ResolverOutcomes.toList, List.mem_cons, List.not_mem_nil,
          or_false] at hsucc
        rcases hsucc with h | h | h
        · rw [← h] at he; simp [settleValue] at he
        · rw [← h] at ha; simp [settleValue] at ha
        · rw [← h] at hk; simp [settleValue] at hk

def c3Rec : ResolvedNameRecord := ⟨⟨"0xb", ⟨"1"⟩⟩, ⟨"survivor.eth", 10000⟩, .addressBook⟩

/-- Witness for C3 at a concrete input: the ENS strategy faults, the
address-book strategy succeeds. -/
theorem lookUpName_fault_isolation_witness :
    (∀ o2 o3, lookUpName initialNameServiceState "0xb" ⟨"1"⟩ true 5 ⟨.rejected, o2, o3⟩ []
        = lookUpName initialNameServiceState "0xb" ⟨"1"⟩ true 5 ⟨.fulfilled none, o2, o3⟩ [])
    ∧ (∀ o1 o3, lookUpName initialNameServiceState "0xb" ⟨"1"⟩ true 5 ⟨o1, .rejected, o3⟩ []
        = lookUpName initialNameServiceState "0xb" ⟨"1"⟩ true 5 ⟨o1, .fulfilled none, o3⟩ [])
    ∧ (∀ o1 o2, lookUpName initialNameServiceState "0xb" ⟨"1"⟩ true 5 ⟨o1, o2, .rejected⟩ []
        = lookUpName initialNameServiceState "0xb" ⟨"1"⟩ true 5 ⟨o1, o2, .fulfilled none⟩ [])
    ∧ ∃ w, SettledOutcome.fulfilled (some w)
          ∈ (ResolverOutcomes.mk .rejected (.fulfilled (some c3Rec)) (.fulfilled none)).toList
        ∧ (lookUpName initialNameServiceState "0xb" ⟨"1"⟩ true 5
            ⟨.rejected, .fulfilled (some c3Rec), .fulfilled none⟩ []).ret
          = .ok (some w.resolved.name) :=
  lookUpName_fault_isolation initialNameServiceState "0xb" ⟨"1"⟩ true 5
    ⟨.rejected, .fulfilled (some c3Rec), .fulfilled none⟩ [] c3Rec
    rfl (fun c h => by simp [initialNameServiceState] at h) (by decide) (by decide)

/-- C4: on a cache-missing call whose resolution produces a winning record,
the record is stored unconditionally under the address (replacing any prior
entry), and a resolvedName event is emitted exactly when the winning name
differs from the previously cached name — including the case of no previously
cached name. -/
theorem lookUpName_store_and_emit
    (state : NameServiceState) (address : String) (network : EVMNetwork)
    (checkCache : Bool) (now : Nat) (outcomes : ResolverOutcomes)
    (completionOrder : List Nat) (w : ResolvedNameRecord)
    (hnet : network.chainID = "1")
    (hmiss : ∀ c, (if checkCache then state.cachedResolvedNames address else none) = some c →
      c.resolved.expiresAt < now)
    (hwin : resolvedNameRecordOf outcomes completionOrder = some w) :
    (lookUpName state address network checkCache now outcomes completionOrder).ret
      = .ok (some w.resolved.name)
    ∧ (lookUpName state address network checkCache now outcomes
        completionOrder).cachedResolvedNames address = some w
    ∧ ((lookUpName state address network checkCache now outcomes
          completionOrder).resolvedNameEvents = [w]
        ↔ (state.cachedResolvedNames address).map (fun r => r.resolved.name)
          ≠ some w.resolved.name)
    ∧ ((lookUpName state address network checkCache now outcomes
          completionOrder).resolvedNameEvents = []
        ↔ (state.cachedResolvedNames address).map (fun r => r.resolved.name)
          = some w.resolved.name) := by
  rw [lookUpName_miss state address network checkCache now outcomes completionOrder
    hnet hmiss]
  obtain ⟨h1, h2, h3⟩ :=
    lookUpNameResolve_win state address outcomes completionOrder w hwin
  refine ⟨h1, h2, ?_, ?_⟩ <;> rw [h3] <;>
    by_cases hc : (state.cachedResolvedNames address).map (fun r => r.resolved.name)
      = some w.resolved.name <;> simp [hc]

def c4Rec : ResolvedNameRecord := ⟨⟨"0xc", ⟨"1"⟩⟩, ⟨"fresh.eth", 10000⟩, .ENS⟩

/-- Witness for C4 at a concrete input: an empty cache and an ENS record; the
record is stored and (the cached name having been absent) an event is due. -/
theorem lookUpName_store_and_emit_witness :
    (lookUpName initialNameServiceState "0xc" ⟨"1"⟩ true 5
        ⟨.fulfilled (some c4Rec), .fulfilled none, .fulfilled none⟩ []).ret
      = .ok (some c4Rec.resolved.name)
    ∧ (lookUpName initialNameServiceState "0xc" ⟨"1"⟩ true 5
        ⟨.fulfilled (some c4Rec), .fulfilled none, .fulfilled none⟩
        []).cachedResolvedNames "0xc" = some c4Rec
    ∧ ((lookUpName initialNameServiceState "0xc" ⟨"1"⟩ true 5
          ⟨.fulfilled (some c4Rec), .fulfilled none, .fulfilled none⟩ []).resolvedNameEvents
        = [c4Rec]
        ↔ (initialNameServiceState.cachedResolvedNames "0xc").map (fun r => r.resolved.name)
          ≠ some c4Rec.resolved.name)
    ∧ ((lookUpName initialNameServiceState "0xc" ⟨"1"⟩ true 5
          ⟨.fulfilled (some c4Rec), .fulfilled none, .fulfilled none⟩ []).resolvedNameEvents
        = []
        ↔ (initialNameServiceState.cachedResolvedNames "0xc").map (fun r => r.resolved.name)
          = some c4Rec.resolved.name) :=
  lookUpName_store_and_emit initialNameServiceState "0xc" ⟨"1"⟩ true 5
    ⟨.fulfilled (some c4Rec), .fulfilled none, .fulfilled none⟩ [] c4Rec
    rfl (fun c h => by simp [initialNameServiceState] at h) rfl

/-- C8: when no resolver strategy produces a record (faults included), the
call returns "not found", the name cache is left exactly as it was, and no
resolvedName event is emitted. -/
theorem lookUpName_no_record_no_effects
    (state : NameServiceState) (address : String) (network : EVMNetwork)
    (checkCache : Bool) (now : Nat) (outcomes : ResolverOutcomes)
    (completionOrder : List Nat)
    (hnet : network.chainID = "1")
    (hmiss : ∀ c, (if checkCache then state.cachedResolvedNames address else none) = some c →
      c.resolved.expiresAt < now)
    (hnone : ∀ o ∈ outcomes.toList, settleValue o = none) :
    (lookUpName state address network checkCache now outcomes completionOrder).ret
      = .ok none
    ∧ (lookUpName state address network checkCache now outcomes
        completionOrder).cachedResolvedNames = state.cachedResolvedNames
    ∧ (lookUpName state address network checkCache now outcomes
        completionOrder).resolvedNameEvents = [] := by
  rw [lookUpName_miss state address network checkCache now outcomes completionOrder
    hnet hmiss]
  have h : resolvedNameRecordOf outcomes completionOrder = none := by
    rw [resolvedNameRecordOf_eq_specPriorityWinner]
    have he := hnone outcomes.ens (by simp [ResolverOutcomes.toList])
    have ha := hnone outcomes.addressBook (by simp [ResolverOutcomes.toList])
    have hk := hnone outcomes.knownContracts (by simp [ResolverOutcomes.toList])
    simp [specPriorityWinner, he, ha, hk]
  unfold lookUpNameResolve
  rw [h]
  exact ⟨rfl, rfl, rfl⟩

/-- Witness for C8 at a concrete input: one fault and two no-matches leave a
one-entry cache untouched and return "not found". -/
theorem lookUpName_no_record_no_effects_witness :
    (lookUpName ⟨fun _ => none, fun a => if a = "0xelse" then some c4Rec else none⟩
        "0xd" ⟨"1"⟩ true 5 ⟨.rejected, .fulfilled none, .fulfilled none⟩ []).ret
      = .ok none
    ∧ (lookUpName ⟨fun _ => none, fun a => if a = "0xelse" then some c4Rec else none⟩
        "0xd" ⟨"1"⟩ true 5 ⟨.rejected, .fulfilled none, .fulfilled none⟩
        []).cachedResolvedNames
      = (NameServiceState.mk (fun _ => none)
          (fun a => if a = "0xelse" then some c4Rec else none)).cachedResolvedNames
    ∧ (lookUpName ⟨fun _ => none, fun a => if a = "0xelse" then some c4Rec else none⟩
        "0xd" ⟨"1"⟩ true 5 ⟨.rejected, .fulfilled none, .fulfilled none⟩
        []).resolvedNameEvents = [] :=
  lookUpName_no_record_no_effects
    ⟨fun _ => none, fun a => if a = "0xelse" then some c4Rec else none⟩
    "0xd" ⟨"1"⟩ true 5 ⟨.rejected, .fulfilled none, .fulfilled none⟩ []
    rfl (fun c h => by simp at h) (by decide)

/-- The resolution half always reports the resolvers as invoked. -/
theorem lookUpNameResolve_invoked (state : NameServiceState) (address : String)
    (outcomes : ResolverOutcomes) (co : List Nat) :
    (lookUpNameResolve state address outcomes co).resolversInvoked = true := by
  unfold lookUpNameResolve
  cases resolvedNameRecordOf outcomes co <;> rfl

def c5Old : ResolvedNameRecord := ⟨⟨"0xa", ⟨"1"⟩⟩, ⟨"old.eth", 1000⟩, .ENS⟩

def c5New : ResolvedNameRecord := ⟨⟨"0xa", ⟨"1"⟩⟩, ⟨"new.eth", 999999⟩, .ENS⟩

def c5State : NameServiceState :=
  ⟨fun _ => none, fun a => if a = "0xa" then some c5Old else none⟩

/-- Counterexample to C5: at `Date.now() = 1000`, a cached entry with
`expiresAt = 1000` is not in the future (the spec's validity `now <
expiresAt` fails), yet the call returns the cached name and invokes no
resolver — the code's test is `expiresAt >= Date.now()`, so the boundary
instant still short-circuits resolution. -/
theorem lookUpName_cache_hit_at_exact_expiry :
    (lookUpName c5State "0xa" ⟨"1"⟩ true 1000
        ⟨.fulfilled (some c5New), .fulfilled none, .fulfilled none⟩ []).ret
      = .ok (some "old.eth")
    ∧ (lookUpName c5State "0xa" ⟨"1"⟩ true 1000
        ⟨.fulfilled (some c5New), .fulfilled none, .fulfilled none⟩ []).resolversInvoked
      = false := by
  exact ⟨rfl, rfl⟩

/-- C5 amended: with useCache true and a cached entry present, the cached
name short-circuits resolution exactly when `expiresAt ≥ now` — validity
includes the instant of expiry itself — returning it with no resolver
invoked, the cache untouched and no event; an entry with `expiresAt`
strictly in the past does not short-circuit, and the call proceeds to full
resolution. -/
theorem lookUpName_cache_validity_boundary
    (state : NameServiceState) (address : String) (network : EVMNetwork)
    (now : Nat) (outcomes : ResolverOutcomes) (completionOrder : List Nat)
    (c : ResolvedNameRecord)
    (hnet : network.chainID = "1")
    (hc : state.cachedResolvedNames address = some c) :
    (c.resolved.expiresAt ≥ now →
      (lookUpName state address network true now outcomes completionOrder).ret
        = .ok (some c.resolved.name)
      ∧ (lookUpName state address network true now outcomes
          completionOrder).resolversInvoked = false
      ∧ (lookUpName state address network true now outcomes
          completionOrder).cachedResolvedNames = state.cachedResolvedNames
      ∧ (lookUpName state address network true now outcomes
          completionOrder).resolvedNameEvents = [])
    ∧ (c.resolved.expiresAt < now →
      lookUpName state address network true now outcomes completionOrder
        = lookUpNameResolve state address outcomes completionOrder
      ∧ (lookUpName state address network true now outcomes
          completionOrder).resolversInvoked = true) := by
  constructor
  · intro hge
    unfold lookUpName
    rw [if_neg (by simp [hnet])]
    simp only [if_true, hc]
    rw [if_pos hge]
    exact ⟨rfl, rfl, rfl, rfl⟩
  · intro hlt
    have hm := lookUpName_miss state address network true now outcomes completionOrder
      hnet (fun c' h => by
        simp only [if_true, hc] at h
        cases h
        exact hlt)
    exact ⟨hm, by rw [hm]; exact lookUpNameResolve_invoked _ _ _ _⟩

def c5Valid : ResolvedNameRecord := ⟨⟨"0xw", ⟨"1"⟩⟩, ⟨"still.eth", 2000⟩, .ENS⟩

/-- Witness for the amended C5 at a concrete input: an entry expiring at 2000
consulted at time 1500. -/
theorem lookUpName_cache_validity_boundary_witness :
    (c5Valid.resolved.expiresAt ≥ 1500 →
      (lookUpName ⟨fun _ => none, fun a => if a = "0xw" then some c5Valid else none⟩
          "0xw" ⟨"1"⟩ true 1500 ⟨.fulfilled none, .fulfilled none, .fulfilled none⟩ []).ret
        = .ok (some c5Valid.resolved.name)
      ∧ (lookUpName ⟨fun _ => none, fun a => if a = "0xw" then some c5Valid else none⟩
          "0xw" ⟨"1"⟩ true 1500 ⟨.fulfilled none, .fulfilled none, .fulfilled none⟩
          []).resolversInvoked = false
      ∧ (lookUpName ⟨fun _ => none, fun a => if a = "0xw" then some c5Valid else none⟩
          "0xw" ⟨"1"⟩ true 1500 ⟨.fulfilled none, .fulfilled none, .fulfilled none⟩
          []).cachedResolvedNames
        = (NameServiceState.mk (fun _ => none)
            (fun a => if a = "0xw" then some c5Valid else none)).cachedResolvedNames
      ∧ (lookUpName ⟨fun _ => none, fun a => if a = "0xw" then some c5Valid else none⟩
          "0xw" ⟨"1"⟩ true 1500 ⟨.fulfilled none, .fulfilled none, .fulfilled none⟩
          []).resolvedNameEvents = [])
    ∧ (c5Valid.resolved.expiresAt < 1500 →
      lookUpName ⟨fun _ => none, fun a => if a = "0xw" then some c5Valid else none⟩
          "0xw" ⟨"1"⟩ true 1500 ⟨.fulfilled none, .fulfilled none, .fulfilled none⟩ []
        = lookUpNameResolve ⟨fun _ => none, fun a => if a = "0xw" then some c5Valid else none⟩
            "0xw" ⟨.fulfilled none, .fulfilled none, .fulfilled none⟩ []
      ∧ (lookUpName ⟨fun _ => none, fun a => if a = "0xw" then some c5Valid else none⟩
          "0xw" ⟨"1"⟩ true 1500 ⟨.fulfilled none, .fulfilled none, .fulfilled none⟩
          []).resolversInvoked = true) :=
  lookUpName_cache_validity_boundary
    ⟨fun _ => none, fun a => if a = "0xw" then some c5Valid else none⟩
    "0xw" ⟨"1"⟩ 1500 ⟨.fulfilled none, .fulfilled none, .fulfilled none⟩ [] c5Valid
    rfl rfl

def c9Rec : ResolvedNameRecord := ⟨⟨"0xAB", ⟨"1"⟩⟩, ⟨"mixed.eth", 5000⟩, .ENS⟩

/-- Counterexample to C9: `lookUpName` keys the name cache by the verbatim
address string, not its canonical normalized form. Resolving the spelling
"0xAB" stores the record under "0xAB" only; the spelling "0xab" of the very
same account address (the two normalize identically) has no entry, and a
subsequent cache-checking call for "0xab" misses the still-valid entry — it
invokes the resolvers and returns "not found" when they produce nothing —
instead of finding the same cache entry as the claim requires. -/
theorem lookUpName_cache_key_not_normalized :
    normalizeEVMAddress "0xAB" = normalizeEVMAddress "0xab"
    ∧ (lookUpName initialNameServiceState "0xAB" ⟨"1"⟩ true 0
        ⟨.fulfilled (some c9Rec), .fulfilled none, .fulfilled none⟩
        []).cachedResolvedNames "0xAB" = some c9Rec
    ∧ (lookUpName initialNameServiceState "0xAB" ⟨"1"⟩ true 0
        ⟨.fulfilled (some c9Rec), .fulfilled none, .fulfilled none⟩
        []).cachedResolvedNames "0xab" = none
    ∧ (lookUpName
        ⟨fun _ => none,
          (lookUpName initialNameServiceState "0xAB" ⟨"1"⟩ true 0
            ⟨.fulfilled (some c9Rec), .fulfilled none, .fulfilled none⟩
            []).cachedResolvedNames⟩
        "0xab" ⟨"1"⟩ true 0
        ⟨.fulfilled none, .fulfilled none, .fulfilled none⟩ []).ret = .ok none
    ∧ (lookUpName
        ⟨fun _ => none,
          (lookUpName initialNameServiceState "0xAB" ⟨"1"⟩ true 0
            ⟨.fulfilled (some c9Rec), .fulfilled none, .fulfilled none⟩
            []).cachedResolvedNames⟩
        "0xab" ⟨"1"⟩ true 0
        ⟨.fulfilled none, .fulfilled none, .fulfilled none⟩ []).resolversInvoked
      = true := by
  exact ⟨rfl, rfl, rfl, rfl, rfl⟩

/-- C9 amended: the name cache is keyed by the address string exactly as
passed to `lookUpName`: with no entry under that verbatim spelling the call
resolves (whatever entries other spellings may have), a winning record is
stored under the verbatim key, and every other key — differently-cased
spellings of the same address included — is left untouched. Only the
address-book and known-contract strategies normalize the address, for their
own table lookups. -/
theorem lookUpName_cache_keyed_verbatim
    (state : NameServiceState) (address otherKey : String) (network : EVMNetwork)
    (now : Nat) (outcomes : ResolverOutcomes) (completionOrder : List Nat)
    (r : ResolvedNameRecord)
    (hnet : network.chainID = "1")
    (hnone : state.cachedResolvedNames address = none)
    (hwin : resolvedNameRecordOf outcomes completionOrder = some r)
    (hne : otherKey ≠ address) :
    (lookUpName state address network true now outcomes
        completionOrder).resolversInvoked = true
    ∧ (lookUpName state address network true now outcomes
        completionOrder).cachedResolvedNames address = some r
    ∧ (lookUpName state address network true now outcomes
        completionOrder).cachedResolvedNames otherKey
      = state.cachedResolvedNames otherKey := by
  have hm := lookUpName_miss state address network true now outcomes completionOrder
    hnet (fun c h => by simp [hnone] at h)
  rw [hm]
  unfold lookUpNameResolve
  rw [hwin]
  refine ⟨rfl, by simp, by simp [hne]⟩

/-- Witness for the amended C9 at a concrete input: storing a record for
"0xAB" leaves the key "0xab" untouched. -/
theorem lookUpName_cache_keyed_verbatim_witness :
    (lookUpName initialNameServiceState "0xAB" ⟨"1"⟩ true 0
        ⟨.fulfilled (some c9Rec), .fulfilled none, .fulfilled none⟩
        []).resolversInvoked = true
    ∧ (lookUpName initialNameServiceState "0xAB" ⟨"1"⟩ true 0
        ⟨.fulfilled (some c9Rec), .fulfilled none, .fulfilled none⟩
        []).cachedResolvedNames "0xAB" = some c9Rec
    ∧ (lookUpName initialNameServiceState "0xAB" ⟨"1"⟩ true 0
        ⟨.fulfilled (some c9Rec), .fulfilled none, .fulfilled none⟩
        []).cachedResolvedNames "0xab"
      = initialNameServiceState.cachedResolvedNames "0xab" :=
  lookUpName_cache_keyed_verbatim initialNameServiceState "0xAB" "0xab" ⟨"1"⟩ 0
    ⟨.fulfilled (some c9Rec), .fulfilled none, .fulfilled none⟩ [] c9Rec
    rfl rfl rfl (by decide)

/-- C10: every record any of the three resolver strategies produces carries
`expiresAt` equal to the resolution-time `Date.now()` plus
`MINIMUM_RECORD_EXPIRY`, which is `10 * SECOND` = 10000 milliseconds —
exactly ten seconds — so every freshly cached entry has a ten-second
validity window. -/
theorem resolver_records_ten_second_expiry
    (lookupAddress addressBookEVM knownContractsEVM : String → Option String)
    (now : Nat) (addressNetwork : AddressOnNetwork) (r : ResolvedNameRecord) :
    MINIMUM_RECORD_EXPIRY = 10 * SECOND
    ∧ MINIMUM_RECORD_EXPIRY = 10000
    ∧ (ensAddressResolverFor lookupAddress now addressNetwork = some r →
        r.resolved.expiresAt = now + MINIMUM_RECORD_EXPIRY)
    ∧ (addressBookResolverFor addressBookEVM now addressNetwork = some r →
        r.resolved.expiresAt = now + MINIMUM_RECORD_EXPIRY)
    ∧ (knownContractResolverFor knownContractsEVM now addressNetwork = some r →
        r.resolved.expiresAt = now + MINIMUM_RECORD_EXPIRY) := by
  refine ⟨rfl, rfl, ?_, ?_, ?_⟩
  · intro h
    unfold ensAddressResolverFor at h
    split at h
    · exact Option.noConfusion h
    · split at h
      · cases h; rfl
      · exact Option.noConfusion h
  · intro h
    unfold addressBookResolverFor at h
    split at h
    · exact Option.noConfusion h
    · cases h; rfl
  · intro h
    unfold knownContractResolverFor at h
    split at h
    · exact Option.noConfusion h
    · cases h; rfl

/-- Witness for C10 at a concrete input: each strategy resolves "0xAB" at
time 400 and each produced record expires at 400 + 10000. -/
theorem resolver_records_ten_second_expiry_witness :
    MINIMUM_RECORD_EXPIRY = 10 * SECOND
    ∧ MINIMUM_RECORD_EXPIRY = 10000
    ∧ (ensAddressResolverFor (fun _ => some "who.eth") 400 ⟨"0xAB", ⟨"1"⟩⟩
        = some ⟨⟨"0xAB", ⟨"1"⟩⟩, ⟨"who.eth", 400 + MINIMUM_RECORD_EXPIRY⟩, .ENS⟩ →
        (ResolvedNameRecord.mk ⟨"0xAB", ⟨"1"⟩⟩
          ⟨"who.eth", 400 + MINIMUM_RECORD_EXPIRY⟩ .ENS).resolved.expiresAt
          = 400 + MINIMUM_RECORD_EXPIRY)
    ∧ (addressBookResolverFor (fun _ => some "pal") 400 ⟨"0xAB", ⟨"1"⟩⟩
        = some ⟨⟨"0xAB", ⟨"1"⟩⟩, ⟨"who.eth", 400 + MINIMUM_RECORD_EXPIRY⟩, .ENS⟩ →
        (ResolvedNameRecord.mk ⟨"0xAB", ⟨"1"⟩⟩
          ⟨"who.eth", 400 + MINIMUM_RECORD_EXPIRY⟩ .ENS).resolved.expiresAt
          = 400 + MINIMUM_RECORD_EXPIRY)
    ∧ (knownContractResolverFor (fun _ => some "0x Router") 400 ⟨"0xAB", ⟨"1"⟩⟩
        = some ⟨⟨"0xAB", ⟨"1"⟩⟩, ⟨"who.eth", 400 + MINIMUM_RECORD_EXPIRY⟩, .ENS⟩ →
        (ResolvedNameRecord.mk ⟨"0xAB", ⟨"1"⟩⟩
          ⟨"who.eth", 400 + MINIMUM_RECORD_EXPIRY⟩ .ENS).resolved.expiresAt
          = 400 + MINIMUM_RECORD_EXPIRY) :=
  resolver_records_ten_second_expiry (fun _ => some "who.eth") (fun _ => some "pal")
    (fun _ => some "0x Router") 400 ⟨"0xAB", ⟨"1"⟩⟩
    ⟨⟨"0xAB", ⟨"1"⟩⟩, ⟨"who.eth", 400 + MINIMUM_RECORD_EXPIRY⟩, .ENS⟩

/-- C7: `lookUpEthereumAddress` throws the invalid-name error for every name
not ending in ".eth", before the provider is consulted; for a suffixed name
whose forward lookup returns nothing, an empty string, or a value failing the
hexadecimal shape check, it returns "not found" without failing; and on
success it returns the normalized address and emits one resolvedAddress
event. -/
theorem lookUpEthereumAddress_behavior
    (resolveName : String → Option String) (name : String) :
    (¬ jsEndsWith name ".eth" = true →
      (lookUpEthereumAddress resolveName name).ret
        = .error "Only .eth names can be resolved today."
      ∧ (lookUpEthereumAddress resolveName name).providerCalled = false)
    ∧ (jsEndsWith name ".eth" = true → resolveName name = none →
      (lookUpEthereumAddress resolveName name).ret = .ok none)
    ∧ (∀ a, jsEndsWith name ".eth" = true → resolveName name = some a →
      (a = "" ∨ ¬ hexAddressShapeTest a = true) →
      (lookUpEthereumAddress resolveName name).ret = .ok none)
    ∧ (∀ a, jsEndsWith name ".eth" = true → resolveName name = some a →
      a ≠ "" → hexAddressShapeTest a = true →
      (lookUpEthereumAddress resolveName name).ret = .ok (some (normalizeEVMAddress a))
      ∧ (lookUpEthereumAddress resolveName name).resolvedAddressEvents
        = [⟨name, ⟨normalizeEVMAddress a, ETHEREUM⟩, .ENS⟩]) := by
  refine ⟨?_, ?_, ?_, ?_⟩
  · intro hne
    unfold lookUpEthereumAddress
    rw [if_pos (by simpa using hne)]
    exact ⟨rfl, rfl⟩
  · intro hsuf hlookup
    unfold lookUpEthereumAddress
    rw [if_neg (by simp [hsuf]), hlookup]
  · intro a hsuf hlookup hbad
    unfold lookUpEthereumAddress
    rw [if_neg (by simp [hsuf]), hlookup]
    rcases hbad with hempty | hshape
    · simp [hempty]
    · simp [hshape]
  · intro a hsuf hlookup hnonempty hshape
    unfold lookUpEthereumAddress
    rw [if_neg (by simp [hsuf]), hlookup]
    simp [hnonempty, hshape]

/-- Witness for C7 at a concrete input: a provider resolving every name to
"0xAbC1". -/
theorem lookUpEthereumAddress_behavior_witness :
    (¬ jsEndsWith "foo.eth" ".eth" = true →
      (lookUpEthereumAddress (fun _ => some "0xAbC1") "foo.eth").ret
        = .error "Only .eth names can be resolved today."
      ∧ (lookUpEthereumAddress (fun _ => some "0xAbC1") "foo.eth").providerCalled = false)
    ∧ (jsEndsWith "foo.eth" ".eth" = true → (fun _ => some "0xAbC1") "foo.eth" = none →
      (lookUpEthereumAddress (fun _ => some "0xAbC1") "foo.eth").ret = .ok none)
    ∧ (∀ a, jsEndsWith "foo.eth" ".eth" = true →
      (fun _ => some "0xAbC1") "foo.eth" = some a →
      (a = "" ∨ ¬ hexAddressShapeTest a = true) →
      (lookUpEthereumAddress (fun _ => some "0xAbC1") "foo.eth").ret = .ok none)
    ∧ (∀ a, jsEndsWith "foo.eth" ".eth" = true →
      (fun _ => some "0xAbC1") "foo.eth" = some a →
      a ≠ "" → hexAddressShapeTest a = true →
      (lookUpEthereumAddress (fun _ => some "0xAbC1") "foo.eth").ret
        = .ok (some (normalizeEVMAddress a))
      ∧ (lookUpEthereumAddress (fun _ => some "0xAbC1") "foo.eth").resolvedAddressEvents
        = [⟨"foo.eth", ⟨normalizeEVMAddress a, ETHEREUM⟩, .ENS⟩]) :=
  lookUpEthereumAddress_behavior (fun _ => some "0xAbC1") "foo.eth"

def c6NameRec : ResolvedNameRecord := ⟨⟨"0xAD", ⟨"1"⟩⟩, ⟨"avatar.eth", 10000⟩, .ENS⟩

def c6Resolver : ResolverHandle :=
  ⟨some "0xAD",
   fun key => if key = "avatar" then some "eip155:1/erc721:0xdeadbeef" else none⟩

/-- The opaque-path URL that `new URL("eip155:1/erc721:0xdeadbeef")`
produces. -/
def c6URL : URL := ⟨"eip155", "", "1/erc721:0xdeadbeef", none, none, false⟩

/-- Counterexample to C6: the avatar text record "eip155:1/erc721:0xdeadbeef"
matches the ERC-721 pattern but has no token-id segment. The metadata fetch
is indeed skipped, but the call does not return "not found": control falls
through to `return storageGatewayURL(new URL(avatar))` and the text itself,
parsed as a URL, is returned — even though the environment had metadata
available. -/
theorem lookUpAvatar_absent_token_id_not_notfound :
    (lookUpAvatar initialNameServiceState "0xAD" ⟨"1"⟩ 0
        ⟨.fulfilled (some c6NameRec), .fulfilled none, .fulfilled none⟩ []
        (fun _ => some c6Resolver)
        (fun _ _ => some ⟨some "https://img.example/a.png"⟩)).metadataFetched = false
    ∧ (lookUpAvatar initialNameServiceState "0xAD" ⟨"1"⟩ 0
        ⟨.fulfilled (some c6NameRec), .fulfilled none, .fulfilled none⟩ []
        (fun _ => some c6Resolver)
        (fun _ _ => some ⟨some "https://img.example/a.png"⟩)).ret
      = .ok (some c6URL)
    ∧ (lookUpAvatar initialNameServiceState "0xAD" ⟨"1"⟩ 0
        ⟨.fulfilled (some c6NameRec), .fulfilled none, .fulfilled none⟩ []
        (fun _ => some c6Resolver)
        (fun _ _ => some ⟨some "https://img.example/a.png"⟩)).ret
      ≠ .ok none := by
  refine ⟨rfl, rfl, ?_⟩
  intro hcontra
  rw [show (lookUpAvatar initialNameServiceState "0xAD" ⟨"1"⟩ 0
      ⟨.fulfilled (some c6NameRec), .fulfilled none, .fulfilled none⟩ []
      (fun _ => some c6Resolver)
      (fun _ _ => some ⟨some "https://img.example/a.png"⟩)).ret
    = .ok (some c6URL) from rfl] at hcontra
  exact Option.noConfusion (Except.ok.inj hcontra)

/-- C6 amended: for an avatar text record matching the ERC-721 pattern (a
nonempty resolved name, cache cold, reverse-check passing), when the
token-contract or token-id segment is absent the metadata fetch is skipped
but the call returns the avatar text itself parsed as a URL and passed
through the gateway rewriter — not "not found"; and when both segments parse
but the fetched metadata is absent, the call likewise returns the rewritten
avatar-text URL rather than "not found". -/
theorem lookUpAvatar_erc721_fallthrough
    (state : NameServiceState) (address : String) (network : EVMNetwork)
    (now : Nat) (outcomes : ResolverOutcomes) (completionOrder : List Nat)
    (handle : ResolverHandle)
    (getTokenMetadata : String → Int → Option TokenMetadata)
    (avatar nm : String) (u : URL)
    (hnet : network.chainID = "1")
    (hname : (lookUpName state address network true now outcomes completionOrder).ret
      = .ok (some nm))
    (hnmne : nm ≠ "")
    (haddr : handle.getAddress = some address)
    (htext : handle.getText "avatar" = some avatar)
    (hnonempty : avatar ≠ "")
    (herc : jsStartsWith avatar "eip155:1/erc721:" = true)
    (hcache : state.cachedEIP155AvatarURLs (jsToLowerCase avatar) = none)
    (hurl : newURL avatar = some u) :
    ((jsSplit avatar fun c => c == ':' || c == '/').get? 4 = none →
      (lookUpAvatar state address network now outcomes completionOrder
          (fun _ => some handle) getTokenMetadata).ret = .ok (some (storageGatewayURL u))
      ∧ (lookUpAvatar state address network now outcomes completionOrder
          (fun _ => some handle) getTokenMetadata).metadataFetched = false)
    ∧ (∀ erc721Address nftID tokenID,
        (jsSplit avatar fun c => c == ':' || c == '/').get? 3 = some erc721Address →
        (jsSplit avatar fun c => c == ':' || c == '/').get? 4 = some nftID →
        jsBigInt nftID = some tokenID →
        getTokenMetadata erc721Address tokenID = none →
        (lookUpAvatar state address network now outcomes completionOrder
            (fun _ => some handle) getTokenMetadata).ret = .ok (some (storageGatewayURL u))
        ∧ (lookUpAvatar state address network now outcomes completionOrder
            (fun _ => some handle) getTokenMetadata).metadataFetched = true) := by
  have hsame : sameEVMAddress handle.getAddress (some address) = true := by
    simp [sameEVMAddress, haddr]
  constructor
  · intro h4
    simp only [List.get?_eq_getElem?] at h4
    cases h3 : (jsSplit avatar fun c => c == ':' || c == '/')[3]? <;>
      constructor <;>
        simp [lookUpAvatar, hnet, hname, hnmne, hsame, htext, hnonempty, herc, hcache,
          h3, h4, avatarTextFallthrough, hurl]
  · intro erc721Address nftID tokenID h3 h4 hbig hmeta
    simp only [List.get?_eq_getElem?] at h3 h4
    constructor <;>
      simp [lookUpAvatar, hnet, hname, hnmne, hsame, htext, hnonempty, herc, hcache,
        h3, h4, hbig, hmeta, avatarTextFallthrough, hurl]

/-- Witness for the amended C6 at a concrete input: the counterexample's
environment with a metadata fetch that finds nothing. -/
theorem lookUpAvatar_erc721_fallthrough_witness :
    (((jsSplit "eip155:1/erc721:0xdeadbeef" fun c => c == ':' || c == '/').get? 4 = none →
      (lookUpAvatar initialNameServiceState "0xAD" ⟨"1"⟩ 0
          ⟨.fulfilled (some c6NameRec), .fulfilled none, .fulfilled none⟩ []
          (fun _ => some c6Resolver)
          (fun _ _ => none)).ret = .ok (some (storageGatewayURL c6URL))
      ∧ (lookUpAvatar initialNameServiceState "0xAD" ⟨"1"⟩ 0
          ⟨.fulfilled (some c6NameRec), .fulfilled none, .fulfilled none⟩ []
          (fun _ => some c6Resolver)
          (fun _ _ => none)).metadataFetched = false)
    ∧ (∀ erc721Address nftID tokenID,
        (jsSplit "eip155:1/erc721:0xdeadbeef" fun c => c == ':' || c == '/').get? 3
          = some erc721Address →
        (jsSplit "eip155:1/erc721:0xdeadbeef" fun c => c == ':' || c == '/').get? 4
          = some nftID →
        jsBigInt nftID = some tokenID →
        (fun (_ : String) (_ : Int) => (none : Option TokenMetadata)) erc721Address tokenID
          = none →
        (lookUpAvatar initialNameServiceState "0xAD" ⟨"1"⟩ 0
            ⟨.fulfilled (some c6NameRec), .fulfilled none, .fulfilled none⟩ []
            (fun _ => some c6Resolver)
            (fun _ _ => none)).ret = .ok (some (storageGatewayURL c6URL))
        ∧ (lookUpAvatar initialNameServiceState "0xAD" ⟨"1"⟩ 0
            ⟨.fulfilled (some c6NameRec), .fulfilled none, .fulfilled none⟩ []
            (fun _ => some c6Resolver)
            (fun _ _ => none)).metadataFetched = true)) :=
  lookUpAvatar_erc721_fallthrough initialNameServiceState "0xAD" ⟨"1"⟩ 0
    ⟨.fulfilled (some c6NameRec), .fulfilled none, .fulfilled none⟩ []
    c6Resolver (fun _ _ => none) "eip155:1/erc721:0xdeadbeef" "avatar.eth" c6URL
    rfl rfl (by decide) rfl rfl (by decide) (by decide) rfl (by decide)
